import Mathlib

/-!
# Verification of the SwarAI intent-routing and multi-task orchestration core

This file gives a shallow embedding, in Lean 4, of the command-processing core of
the SwarAI repository:

* `backend/agents/multi_task_orchestrator.py` — multi-task detection
  (`detect_multi_task`), template planning (`parse_workflow`), the LLM fallback
  planner (`_ai_parse_workflow`) and sequential workflow execution
  (`execute_workflow`);
* `backend/agents/agent_manager.py` — the AI-enhancement node
  (`ai_enhancement_node`), the intent-detection cascade (`intent_detection_node`),
  routing (`route_to_agent_node`), response synthesis (`generate_response_node`),
  the legacy multi-agent LLM-reply parser (`_handle_multi_agent_workflow`) and the
  public entry point `AgentManager.process_command`.

External collaborators (the Groq LLM completion call, the individual agents, the
feature-request logger, and the three legacy sub-workflows that do filesystem and
float-formatting work) are out of scope per the specification; they enter the
model as explicit environment values, so every theorem quantifies over their
behaviour.  Python exceptions of a collaborator are modelled with
`Except String`; Python dictionaries with optional keys are modelled with
structures of `Option` fields.

The Python code matches commands with `re.search`.  A small backtracking
regular-expression engine is defined below, mirroring CPython semantics for the
constructs the source actually uses: ordered alternation (leftmost alternative
preferred), greedy `*`/`+` over a character class, lazy `*?`, greedy `?`,
non-capturing groups, numbered capture groups, case-insensitive literals,
`.` (any character except newline), `\s` and `\w`.  `re.search` semantics
(earliest start position wins, then backtracking order) are reproduced by
`reSearchFrom`.
-/

/-- Substring containment on character lists: Python `needle in hay`. -/
def listContains (needle : List Char) : List Char → Bool
  | [] => needle.isEmpty
  | c :: rest => needle.isPrefixOf (c :: rest) || listContains needle rest

/-- Python `needle in hay` on strings. -/
def strContains (hay needle : String) : Bool :=
  listContains needle.data hay.data

/-- Python `str.lower()` (the source only feeds it ASCII command text). -/
def lowerStr (s : String) : String :=
  ⟨s.data.map Char.toLower⟩

/-- Python `str.strip()`: drop leading and trailing whitespace. -/
def stripStr (s : String) : String :=
  ⟨((s.data.dropWhile Char.isWhitespace).reverse.dropWhile Char.isWhitespace).reverse⟩

/-- Python `str.startswith(pre)`. -/
def startsWithStr (s pre : String) : Bool :=
  pre.data.isPrefixOf s.data

/-- Fuel-driven worker for `replaceStr`; the fuel is the input length, enough for
every non-empty pattern (the source only replaces the non-empty literals
`"WORKFLOW:"`, `"FILE:"`, `"RECIPIENT:"`, `"MESSAGE:"`). -/
def replaceAux (pat rep : List Char) : Nat → List Char → List Char
  | 0, l => l
  | _ + 1, [] => []
  | fuel + 1, c :: rest =>
    if pat.isPrefixOf (c :: rest) then
      rep ++ replaceAux pat rep fuel ((c :: rest).drop pat.length)
    else
      c :: replaceAux pat rep fuel rest

/-- Python `str.replace(pat, rep)`: replace all non-overlapping occurrences,
left to right. -/
def replaceStr (s pat rep : String) : String :=
  ⟨replaceAux pat.data rep.data s.data.length s.data⟩

/-- Python `str.split("\n")`. -/
def splitLinesAux : List Char → List Char → List String
  | [], acc => [⟨acc.reverse⟩]
  | c :: rest, acc =>
    if c == '\n' then String.mk acc.reverse :: splitLinesAux rest []
    else splitLinesAux rest (c :: acc)

/-- Python `str.split("\n")` on a string. -/
def splitLines (s : String) : List String :=
  splitLinesAux s.data []

/-- Regular-expression abstract syntax, restricted to the constructs appearing in
the Python patterns of this repository. -/
inductive RE where
  /-- empty pattern -/
  | eps : RE
  /-- never matches (empty alternation) -/
  | fail : RE
  /-- case-sensitive literal -/
  | lit : List Char → RE
  /-- case-insensitive literal (stored lowercase), for `re.IGNORECASE` -/
  | litCI : List Char → RE
  /-- single character from a class -/
  | cls : (Char → Bool) → RE
  /-- ordered alternation, left alternative preferred (CPython) -/
  | alt : RE → RE → RE
  /-- concatenation -/
  | cat : RE → RE → RE
  /-- greedy `*` over a character class (`.*`, `\s*`) -/
  | manyG : (Char → Bool) → RE
  /-- lazy `*?` over a character class (`.*?`) -/
  | manyL : (Char → Bool) → RE
  /-- greedy `+` over a character class (`\s+`, `\w+`) -/
  | many1G : (Char → Bool) → RE
  /-- greedy `?` -/
  | opt : RE → RE
  /-- numbered capture group -/
  | grp : Nat → RE → RE

/-- Captured groups: group number paired with captured characters. -/
abbrev Caps := List (Nat × List Char)

/-- Try consumed-lengths `n, n-1, ..., 0` (greedy preference order). -/
def scanDown (f : Nat → Option Caps) : Nat → Option Caps
  | 0 => f 0
  | n + 1 =>
    match f (n + 1) with
    | some c => some c
    | none => scanDown f n

/-- Try consumed-lengths `0, 1, ..., n` (lazy preference order). -/
def scanUp (f : Nat → Option Caps) : Nat → Option Caps
  | 0 => f 0
  | n + 1 =>
    match scanUp f n with
    | some c => some c
    | none => f (n + 1)

/-- Backtracking matcher in continuation-passing style.  `reMatch r cs k env`
matches `r` against a prefix of `cs`, calling the continuation `k` with the
remaining input and the capture environment; candidate splits are tried in
CPython preference order, so the first `some` result agrees with `re` module
behaviour at this start position. -/
def reMatch : RE → List Char → (List Char → Caps → Option Caps) → Caps → Option Caps
  | .eps, cs, k, env => k cs env
  | .fail, _, _, _ => none
  | .lit l, cs, k, env =>
    if l.isPrefixOf cs then k (cs.drop l.length) env else none
  | .litCI l, cs, k, env =>
    if l.isPrefixOf (cs.map Char.toLower) then k (cs.drop l.length) env else none
  | .cls _, [], _, _ => none
  | .cls p, c :: cs, k, env => if p c then k cs env else none
  | .alt r₁ r₂, cs, k, env =>
    match reMatch r₁ cs k env with
    | some c => some c
    | none => reMatch r₂ cs k env
  | .cat r₁ r₂, cs, k, env =>
    reMatch r₁ cs (fun cs' env' => reMatch r₂ cs' k env') env
  | .manyG p, cs, k, env =>
    scanDown (fun i => k (cs.drop i) env) (cs.takeWhile p).length
  | .manyL p, cs, k, env =>
    scanUp (fun i => k (cs.drop i) env) (cs.takeWhile p).length
  | .many1G _, [], _, _ => none
  | .many1G p, c :: cs, k, env =>
    if p c then scanDown (fun i => k (cs.drop i) env) (cs.takeWhile p).length else none
  | .opt r, cs, k, env =>
    match reMatch r cs k env with
    | some c => some c
    | none => k cs env
  | .grp n r, cs, k, env =>
    reMatch r cs (fun cs' env' => k cs' ((n, cs.take (cs.length - cs'.length)) :: env')) env

/-- `re.search`: try each start position from the left; the earliest position
with a match wins (Python leftmost semantics). -/
def reSearchFrom (r : RE) : List Char → Option Caps
  | [] => reMatch r [] (fun _ env => some env) []
  | c :: cs =>
    match reMatch r (c :: cs) (fun _ env => some env) [] with
    | some env => some env
    | none => reSearchFrom r cs

/-- Boolean `re.search(r, s)`. -/
def reTest (r : RE) (s : String) : Bool :=
  (reSearchFrom r s.data).isSome

/-- `re.search(r, s).group(n)`; `none` when the search fails. -/
def reGroup (r : RE) (n : Nat) (s : String) : Option String :=
  match reSearchFrom r s.data with
  | none => none
  | some env =>
    match env.find? (fun e => e.1 == n) with
    | some e => some ⟨e.2⟩
    | none => none

/-- `.` in a Python pattern: any character except newline. -/
def dotP : Char → Bool := fun c => !(c == '\n')

/-- `\s` (the source text is ASCII; `\f`/`\v` do not occur in it). -/
def wsP : Char → Bool := Char.isWhitespace

/-- `\w`: word characters of the ASCII command text. -/
def wordP : Char → Bool := fun c => c.isAlphanum || c == '_'

/-- The class `[\w\s@.]` from the e-mail contact pattern. -/
def emailP : Char → Bool := fun c => wordP c || wsP c || c == '@' || c == '.'

/-- Case-sensitive literal pattern. -/
def litOf (s : String) : RE := RE.lit s.data

/-- Case-insensitive literal pattern (argument written lowercase). -/
def litCIOf (s : String) : RE := RE.litCI s.data

/-- Ordered alternation of a list of patterns. -/
def altOf : List RE → RE
  | [] => RE.fail
  | [r] => r
  | r :: rest => RE.alt r (altOf rest)

/-- `(a|b|c)` over case-sensitive literals. -/
def altLits (ss : List String) : RE := altOf (ss.map litOf)

/-- `(a|b|c)` over case-insensitive literals. -/
def altLitsCI (ss : List String) : RE := altOf (ss.map litCIOf)

/-- Concatenation of a list of patterns. -/
def cats : List RE → RE
  | [] => RE.eps
  | [r] => r
  | r :: rest => RE.cat r (cats rest)

/-!
## Data model

Python passes untyped dictionaries around; optional keys become `Option` fields
and a missing key is `none` (`dict.get` with a default becomes `Option.getD`).
-/

/-- A task descriptor produced by `MultiTaskOrchestrator.parse_workflow`
(`{"agent": ..., "input": ..., "extract": ..., "use_previous": ...}`). -/
structure TaskDescriptor where
  agent : String
  input : String
  extract : Option String := none
  use_previous : Option String := none
deriving DecidableEq

/-- The result dictionary returned by an agent `process_command` /
`process_conversation` call.  `file_path` and `path` are the two keys
`execute_workflow` reads for data threading; further agent-specific keys are
passed through opaquely by the core and are not modelled. -/
structure AgentResult where
  success : Option Bool := none
  message : Option String := none
  error : Option String := none
  file_path : Option String := none
  path : Option String := none
deriving DecidableEq

/-- One entry of `task_results` in `execute_workflow`. -/
structure TaskRecord where
  task_index : Nat
  agent : String
  result : AgentResult
deriving DecidableEq

/-- A manager-level or workflow-level response dictionary (the union of keys the
modelled code writes; a field left `none` / `[]` corresponds to an absent key). -/
structure PyResult where
  success : Option Bool := none
  message : Option String := none
  error : Option String := none
  completed_tasks : Option Nat := none
  tasks_count : Option Nat := none
  task_results : List TaskRecord := []
deriving DecidableEq

/-- Coercion of an agent result dictionary into the manager-level view
(an artefact of typing the untyped Python dictionaries; no key is changed). -/
def AgentResult.toPy (r : AgentResult) : PyResult :=
  { success := r.success, message := r.message, error := r.error }

/-- The agent registry `self.agents`: agent name to `process_command` function;
`none` models a name absent from the dictionary.  Agents are external
collaborators, so the registry is a parameter everywhere. -/
def Registry := String → Option (String → AgentResult)

/-!
## `multi_task_orchestrator.py` — detection

`detect_multi_task` (lines 42-91): six structural regexes over the lowercased
input, then a count of distinct agent-keyword categories.
-/

/-- Pattern `(find|search|open|get).*(?:file|document|pdf|photo).*(?:send|share|email|whatsapp)`. -/
def pat_detect_file_comm : RE :=
  cats [altLits ["find", "search", "open", "get"], RE.manyG dotP,
        altLits ["file", "document", "pdf", "photo"], RE.manyG dotP,
        altLits ["send", "share", "email", "whatsapp"]]

/-- Pattern `(send|share|email|whatsapp).*(file|document|pdf|photo)`. -/
def pat_detect_comm_file : RE :=
  cats [altLits ["send", "share", "email", "whatsapp"], RE.manyG dotP,
        altLits ["file", "document", "pdf", "photo"]]

/-- Pattern `(take|capture).*screenshot.*(?:send|share|email|whatsapp)`. -/
def pat_detect_screenshot_comm : RE :=
  cats [altLits ["take", "capture"], RE.manyG dotP, litOf "screenshot",
        RE.manyG dotP, altLits ["send", "share", "email", "whatsapp"]]

/-- Pattern `screenshot.*(?:and|then).*(?:send|share|email)`. -/
def pat_detect_screenshot_and : RE :=
  cats [litOf "screenshot", RE.manyG dotP, altLits ["and", "then"],
        RE.manyG dotP, altLits ["send", "share", "email"]]

/-- Pattern `.*\s+and\s+(then\s+)?(?:send|email|call|message|whatsapp)`
(the capture group around `then\s+` is never read, so it is not numbered). -/
def pat_detect_and_then : RE :=
  cats [RE.manyG dotP, RE.many1G wsP, litOf "and", RE.many1G wsP,
        RE.opt (RE.cat (litOf "then") (RE.many1G wsP)),
        altLits ["send", "email", "call", "message", "whatsapp"]]

/-- Pattern `(first|then|after that|next)`. -/
def pat_detect_ordinal : RE :=
  altLits ["first", "then", "after that", "next"]

/-- `multi_task_patterns` of `detect_multi_task`. -/
def multi_task_patterns : List RE :=
  [pat_detect_file_comm, pat_detect_comm_file, pat_detect_screenshot_comm,
   pat_detect_screenshot_and, pat_detect_and_then, pat_detect_ordinal]

/-- `agent_keywords` of `detect_multi_task`. -/
def orch_agent_keywords : List (String × List String) :=
  [("filesearch", ["find", "search", "file", "document", "pdf", "photo"]),
   ("whatsapp", ["whatsapp", "message", "send message"]),
   ("email", ["email", "send email", "mail"]),
   ("screenshot", ["screenshot", "capture screen", "take screenshot"]),
   ("phone", ["call", "phone", "dial"])]

/-- `MultiTaskOrchestrator.detect_multi_task`: any structural pattern matches, or
keywords of at least two distinct agent categories occur. -/
def detect_multi_task (user_input : String) : Bool :=
  let lower := lowerStr user_input
  multi_task_patterns.any (fun p => reTest p lower) ||
    decide (2 ≤ (orch_agent_keywords.filter
      (fun ak => ak.2.any (fun kw => strContains lower kw))).length)

/-!
## `multi_task_orchestrator.py` — planning
-/

/-- Branch guard `(send|share).*(file|pdf|photo|document).*(to|with)`
(its groups are never read). -/
def pat_send_file_comm : RE :=
  cats [altLits ["send", "share"], RE.manyG dotP,
        altLits ["file", "pdf", "photo", "document"], RE.manyG dotP,
        altLits ["to", "with"]]

/-- File query capture `(send|share)\s+(.*?)\s+(?:to|with|on)`; only group 2 is
read by the source. -/
def pat_file_capture : RE :=
  cats [altLits ["send", "share"], RE.many1G wsP, RE.grp 2 (RE.manyL dotP),
        RE.many1G wsP, altLits ["to", "with", "on"]]

/-- WhatsApp contact capture `(?:to|with)\s+(\w+)(?:\s+on|\s+via|\s+through)?`
with `re.IGNORECASE`. -/
def pat_wa_contact : RE :=
  cats [altLitsCI ["to", "with"], RE.many1G wsP, RE.grp 1 (RE.many1G wordP),
        RE.opt (altOf [RE.cat (RE.many1G wsP) (litCIOf "on"),
                       RE.cat (RE.many1G wsP) (litCIOf "via"),
                       RE.cat (RE.many1G wsP) (litCIOf "through")])]

/-- WhatsApp contact capture of the screenshot branch,
`(?:to|with)\s+(\w+)(?:\s+on|\s+via)?` with `re.IGNORECASE`. -/
def pat_wa_contact_screenshot : RE :=
  cats [altLitsCI ["to", "with"], RE.many1G wsP, RE.grp 1 (RE.many1G wordP),
        RE.opt (altOf [RE.cat (RE.many1G wsP) (litCIOf "on"),
                       RE.cat (RE.many1G wsP) (litCIOf "via")])]

/-- E-mail contact capture `(?:to|with)\s+([\w\s@.]+)` with `re.IGNORECASE`. -/
def pat_email_contact : RE :=
  cats [altLitsCI ["to", "with"], RE.many1G wsP, RE.grp 1 (RE.many1G emailP)]

/-- Branch guard `(take|capture).*screenshot.*(and|then)` of the screenshot
template (its groups are never read). -/
def pat_screenshot_then : RE :=
  cats [altLits ["take", "capture"], RE.manyG dotP, litOf "screenshot",
        RE.manyG dotP, altLits ["and", "then"]]

/-- `MultiTaskOrchestrator._ai_parse_workflow` (lines 184-214): the LLM is
invoked, but its reply is never parsed — the function returns the empty list on
the success path (source comment: "For now, return empty") and, through its
`except` clause, also on an LLM exception. -/
def ai_parse_workflow (llm : Except String String) (_user_input : String) : List TaskDescriptor :=
  match llm with
  | Except.ok _ => []
  | Except.error _ => []

/-- `MultiTaskOrchestrator.parse_workflow` (lines 93-182).  The body's own
`try`/`except` (returning `[]`) has no reachable raising operation in the model,
because the LLM call is confined to `ai_parse_workflow`. -/
def parse_workflow (llm : Except String String) (user_input : String) : List TaskDescriptor :=
  let lower := lowerStr user_input
  let tasks : List TaskDescriptor :=
    if reTest pat_send_file_comm lower then
      (match reGroup pat_file_capture 2 user_input with
       | some file_query =>
         [{ agent := "filesearch", input := "find " ++ file_query,
            extract := some "file_path" }]
       | none => []) ++
      (if strContains lower "whatsapp" then
        match reGroup pat_wa_contact 1 user_input with
        | some contact =>
          [{ agent := "whatsapp", input := "send whatsapp to " ++ contact,
             use_previous := some "file_path" }]
        | none => []
      else if strContains lower "email" then
        match reGroup pat_email_contact 1 user_input with
        | some contact =>
          [{ agent := "email", input := "send email to " ++ contact,
             use_previous := some "file_path" }]
        | none => []
      else [])
    else if reTest pat_screenshot_then lower then
      { agent := "screenshot", input := "take screenshot",
        extract := some "screenshot_path" } ::
      (if strContains lower "email" then
        match reGroup pat_email_contact 1 user_input with
        | some contact =>
          [{ agent := "email", input := "send email to " ++ contact,
             use_previous := some "screenshot_path" }]
        | none => []
      else if strContains lower "whatsapp" then
        match reGroup pat_wa_contact_screenshot 1 user_input with
        | some contact =>
          [{ agent := "whatsapp", input := "send whatsapp to " ++ contact,
             use_previous := some "screenshot_path" }]
        | none => []
      else [])
    else []
  if tasks = [] then ai_parse_workflow llm user_input else tasks

/-!
## `multi_task_orchestrator.py` — execution
-/

/-- Lookup in the `shared_data` dictionary (modelled as an association list where
the most recent write is at the head). -/
def lookupShared (k : String) : List (String × String) → Option String
  | [] => none
  | (k₂, v) :: rest => if k₂ == k then some v else lookupShared k rest

/-- Build the dispatch input of a task: the base input, with the `use_previous`
slot value appended after a space when the slot is present in `shared_data`. -/
def build_task_input (t : TaskDescriptor) (shared : List (String × String)) : String :=
  match t.use_previous with
  | none => t.input
  | some k =>
    match lookupShared k shared with
    | some v => t.input ++ " " ++ v
    | none => t.input

/-- The extract step of `execute_workflow`: on success, a slot whose name
contains `file_path` stores the result's `file_path` (default `""`); a slot
whose name contains `screenshot_path` stores the result's `path`. -/
def extract_shared (t : TaskDescriptor) (result : AgentResult)
    (shared : List (String × String)) : List (String × String) :=
  match t.extract with
  | none => shared
  | some k =>
    if strContains k "file_path" && result.success.getD false then
      (k, result.file_path.getD "") :: shared
    else if strContains k "screenshot_path" && result.success.getD false then
      (k, result.path.getD "") :: shared
    else shared

/-- The `for i, task in enumerate(tasks)` loop of `execute_workflow`
(lines 245-286), written as a recursion.  It returns the accumulated
`task_results` together with `none` (all tasks ran and succeeded) or
`some (i, result)` (the loop returned early at index `i` with the failing
result).  A task whose agent name is not in the registry is skipped silently —
the loop body is one big `if agent_name in self.agent_manager.agents`, with no
`else`.  The failing task's record is appended before the early return. -/
def runTasks (agents : Registry) :
    List TaskDescriptor → Nat → List (String × String) → List TaskRecord × Option (Nat × AgentResult)
  | [], _, _ => ([], none)
  | t :: rest, i, shared =>
    match agents t.agent with
    | none => runTasks agents rest (i + 1) shared
    | some f =>
      let result := f (build_task_input t shared)
      if result.success.getD false then
        let next := runTasks agents rest (i + 1) (extract_shared t result shared)
        (⟨i, t.agent, result⟩ :: next.1, next.2)
      else
        ([⟨i, t.agent, result⟩], some (i, result))

/-- The result assembly of `execute_workflow` around the task loop: early return
with `completed_tasks = i` and the partial `task_results` at the first failure,
or the success dictionary after the loop (a missing `message` key prints as the
string `"None"` inside the Python f-string). -/
def execute_tasks (agents : Registry) (tasks : List TaskDescriptor) : PyResult :=
  match runTasks agents tasks 0 [] with
  | (records, some (i, result)) =>
    { success := some false
      message := some ("Workflow failed at task " ++ toString (i + 1) ++ ": " ++
        result.message.getD "None")
      completed_tasks := some i
      task_results := records }
  | (records, none) =>
    { success := some true
      message := some ("✅ Completed " ++ toString tasks.length ++
        "-task workflow successfully!")
      tasks_count := some tasks.length
      task_results := records }

/-- The failure dictionary `execute_workflow` returns when no tasks were
extracted. -/
def could_not_parse_result : PyResult :=
  { success := some false
    message := some "Could not parse multi-task workflow"
    error := some "No tasks extracted" }

/-- `MultiTaskOrchestrator.execute_workflow` (lines 216-301): parse, bail out
with `could_not_parse_result` on an empty plan, otherwise run the loop.  The
surrounding `try`/`except` catches agent exceptions; agents are modelled as
total functions, so that branch is not exercised in the model. -/
def execute_workflow (llm : Except String String) (agents : Registry)
    (user_input : String) : PyResult :=
  let tasks := parse_workflow llm user_input
  if tasks = [] then could_not_parse_result
  else execute_tasks agents tasks

/-!
## `agent_manager.py` — the AI enhancement node

`ai_enhancement_node` (lines 80-204).  The LLM call is the only raising
operation inside the node's inner `try`; its reply or exception is the
`llm` argument.
-/

/-- The enhancement computation of `ai_enhancement_node`: on an LLM exception
use the original; otherwise strip the reply and reject it (falling back to the
original) when it is more than three times as long as the original or shorter
than three characters. -/
def ai_enhancement (llm : Except String String) (raw : String) : String :=
  match llm with
  | Except.error _ => raw
  | Except.ok resp =>
    if (stripStr resp).length > raw.length * 3 ∨ (stripStr resp).length < 3 then raw
    else stripStr resp

/-!
## `agent_manager.py` — the intent-detection cascade

Keyword lists and predicates of `intent_detection_node` (lines 206-515),
transcribed verbatim.  The first `file_keywords` binding at line 235 is dead
(rebound at line 248 before any use); only the live binding is transcribed.
Every predicate lowercases the command itself, which matches the single
`user_input_lower` of the source.
-/

/-- `whatsapp_keywords`. -/
def whatsapp_keywords : List String :=
  ["whatsapp", "message", "send to", "text", "tell", "let know", "inform",
   "send whatsapp", "whatsapp to", "message to", "share"]

/-- `email_keywords`. -/
def email_keywords : List String :=
  ["email", "send email", "compose email", "draft email", "mail to"]

/-- `calendar_keywords`. -/
def calendar_keywords : List String :=
  ["calendar", "schedule", "schedule meeting", "create event", "add event",
   "appointment", "set reminder at", "remind me at"]

/-- `phone_keywords`. -/
def phone_keywords : List String :=
  ["call", "phone", "dial", "ring", "make a call"]

/-- `payment_keywords`. -/
def payment_keywords : List String :=
  ["pay", "payment", "send money", "transfer", "paypal", "googlepay", "paytm",
   "phonepe"]

/-- `app_keywords`. -/
def app_keywords : List String :=
  ["open", "launch", "start", "run", "chrome", "browser", "notepad", "calculator"]

/-- `search_keywords`. -/
def search_keywords : List String :=
  ["google", "search for", "look up", "find on google", "youtube", "browse"]

/-- `task_keywords`. -/
def task_keywords : List String :=
  ["task", "todo", "remind me", "reminder", "add task", "create task", "list tasks"]

/-- `screenshot_keywords`. -/
def screenshot_keywords : List String :=
  ["screenshot", "capture screen", "screen capture", "take screenshot", "capture",
   "take a screenshot"]

/-- `system_control_keywords`. -/
def system_control_keywords : List String :=
  ["volume", "mute", "unmute", "lock", "shutdown", "restart", "reboot", "sleep",
   "hibernate", "louder", "quieter", "volume up", "volume down", "increase volume",
   "decrease volume", "lock screen", "shut down", "turn off", "brightness",
   "brightness up", "brightness down", "brighter", "dimmer", "battery",
   "battery status", "battery level", "time", "what time", "current time",
   "what\x27s the time"]

/-- The live `file_keywords` binding (line 248). -/
def file_keywords : List String :=
  ["find", "search", "open", "ownership", "folder", "photo", "video", "pdf",
   "doc", "docx", "excel", "presentation", "report"]

/-- `information_questions`. -/
def information_questions : List String :=
  ["who is", "who\x27s", "tell me about", "what do you know about",
   "information about", "details about", "tell me more about", "what is",
   "what\x27s", "explain", "describe"]

/-- `capability_questions`. -/
def capability_questions : List String :=
  ["can you", "are you able", "do you", "what can", "how do", "why", "how"]

/-- `general_questions`. -/
def general_questions : List String :=
  ["what", "how", "why", "when", "where", "who", "?"]

/-- `file_extensions`. -/
def file_extensions : List String :=
  [".pdf", ".doc", ".docx", ".xls", ".xlsx", ".txt", ".jpg", ".png", ".mp4", ".mp3"]

/-- `file_context`. -/
def file_context : List String :=
  ["file", "document", "folder", "pdf", "doc", "excel", "photo", "video",
   "music", "ownership", "report", "presentation"]

/-- `file_operation_keywords`. -/
def file_operation_keywords : List String :=
  ["find", "search", "open", "locate", "show me"]

/-- Membership of any keyword of `kws` in the lowercased command. -/
def anyKeyword (cmd : String) (kws : List String) : Bool :=
  kws.any (fun kw => strContains (lowerStr cmd) kw)

/-- `is_information_query`. -/
def is_information_query (cmd : String) : Bool := anyKeyword cmd information_questions

/-- `is_capability_question`. -/
def is_capability_question (cmd : String) : Bool := anyKeyword cmd capability_questions

/-- `is_general_question`: a question word occurs and none of the four action
verbs does. -/
def is_general_question (cmd : String) : Bool :=
  anyKeyword cmd general_questions && !(anyKeyword cmd ["find", "search", "open", "send"])

/-- `has_file_context`: a file-context word or a file extension occurs. -/
def has_file_context (cmd : String) : Bool :=
  anyKeyword cmd file_context || anyKeyword cmd file_extensions

/-- `has_file_operation`. -/
def has_file_operation (cmd : String) : Bool :=
  anyKeyword cmd file_operation_keywords && has_file_context cmd &&
    !(is_information_query cmd) && !(is_capability_question cmd)

/-- `has_whatsapp_intent`. -/
def has_whatsapp_intent (cmd : String) : Bool := anyKeyword cmd whatsapp_keywords

/-- `has_email_intent`. -/
def has_email_intent (cmd : String) : Bool := anyKeyword cmd email_keywords

/-- `has_calendar_intent`. -/
def has_calendar_intent (cmd : String) : Bool := anyKeyword cmd calendar_keywords

/-- `has_phone_intent`. -/
def has_phone_intent (cmd : String) : Bool := anyKeyword cmd phone_keywords

/-- `has_payment_intent`. -/
def has_payment_intent (cmd : String) : Bool := anyKeyword cmd payment_keywords

/-- `has_app_intent`. -/
def has_app_intent (cmd : String) : Bool := anyKeyword cmd app_keywords

/-- `has_search_intent`. -/
def has_search_intent (cmd : String) : Bool := anyKeyword cmd search_keywords

/-- `has_task_intent`. -/
def has_task_intent (cmd : String) : Bool := anyKeyword cmd task_keywords

/-- `has_screenshot_intent`. -/
def has_screenshot_intent (cmd : String) : Bool := anyKeyword cmd screenshot_keywords

/-- `has_system_control_intent`. -/
def has_system_control_intent (cmd : String) : Bool :=
  anyKeyword cmd system_control_keywords

/-- `is_multi_agent_command` (line 283): `"send"` occurs together with any live
`file_keywords` entry (the `multi_agent_patterns` list at line 282 is dead). -/
def is_multi_agent_command (cmd : String) : Bool :=
  file_keywords.any (fun kw =>
    strContains (lowerStr cmd) "send" && strContains (lowerStr cmd) kw)

/-- `is_whatsapp_command` (line 287). -/
def is_whatsapp_command (cmd : String) : Bool :=
  anyKeyword cmd ["send whatsapp", "whatsapp to", "message to", "text to"]

/-!
## The environment of external collaborators

`Env` gathers every out-of-scope collaborator `AgentManager` touches: the four
distinct LLM conversations (each an `Except` value: a reply or an exception),
the conversation agent's `is_conversational_input` check, the agent registry,
the feature-request logger's user message, and the three legacy sub-workflow
helpers of `_handle_multi_agent_workflow` (lines 737-923; their bodies do
filesystem and float-formatting work on agent results and never raise, each
ending in its own `try`/`except`).
-/

/-- External collaborators of the manager pipeline. -/
structure Env where
  /-- the enhancement LLM call of `ai_enhancement_node` -/
  enhanceLLM : Except String String
  /-- the classification-fallback LLM call of `intent_detection_node` -/
  classifyLLM : Except String String
  /-- the workflow-parsing LLM call of `_handle_multi_agent_workflow` -/
  multiAgentLLM : Except String String
  /-- the LLM of `MultiTaskOrchestrator._ai_parse_workflow` -/
  orchLLM : Except String String
  /-- `conversation_agent.is_conversational_input` -/
  isConversational : String → Bool
  /-- the registry `self.agents` -/
  agents : Registry
  /-- `feature_logger.get_user_message` -/
  featureMsg : String → String
  /-- `_execute_file_to_whatsapp_workflow file_query recipient custom_message` -/
  fileToWhatsapp : String → String → String → PyResult
  /-- `_execute_search_and_share_workflow file_query recipient` -/
  searchAndShare : String → String → PyResult
  /-- `_execute_generic_multi_agent_workflow user_input` -/
  genericWorkflow : String → PyResult

/-- `intent_detection_node` (lines 206-515): the multi-task check, then the
fixed keyword cascade, then the conversational check, then the LLM fallback.
An LLM exception is the node's only raising operation reachable in the model;
it produces the `state["error"]` string of the node's `except` clause.  The
returned string is both `detected_intent` and `agent_name` (the node always
sets them equal). -/
def intent_detection (env : Env) (cmd : String) : Except String String :=
  if detect_multi_task cmd then Except.ok "multi_task"
  else if is_information_query cmd && !(has_file_context cmd) then
    Except.ok "conversation"
  else if has_system_control_intent cmd then Except.ok "system_control"
  else if has_screenshot_intent cmd then Except.ok "screenshot"
  else if has_payment_intent cmd then Except.ok "payment"
  else if has_phone_intent cmd then Except.ok "phone"
  else if is_whatsapp_command cmd ||
      (has_whatsapp_intent cmd && !(has_file_operation cmd) &&
        !(is_capability_question cmd)) then
    Except.ok "whatsapp"
  else if is_multi_agent_command cmd ||
      (has_file_operation cmd && has_whatsapp_intent cmd) then
    Except.ok "multi_agent"
  else if has_calendar_intent cmd && !(has_whatsapp_intent cmd) then
    Except.ok "calendar"
  else if has_email_intent cmd && !(has_whatsapp_intent cmd) then
    Except.ok "email"
  else if has_task_intent cmd then Except.ok "task"
  else if has_search_intent cmd && !(has_file_operation cmd) then
    Except.ok "websearch"
  else if has_app_intent cmd && !(has_file_operation cmd) then
    Except.ok "app_launcher"
  else if has_file_operation cmd && !(is_capability_question cmd) &&
      !(is_general_question cmd) then
    Except.ok "filesearch"
  else if is_capability_question cmd || is_general_question cmd then
    Except.ok "conversation"
  else if env.isConversational cmd then Except.ok "conversation"
  else
    match env.classifyLLM with
    | Except.error e => Except.error ("Error in intent detection: " ++ e)
    | Except.ok resp =>
      let intent := lowerStr (stripStr resp)
      if (env.agents intent).isSome || intent == "multi_agent" then Except.ok intent
      else Except.ok "conversation"

/-!
## `agent_manager.py` — the legacy multi-agent workflow (lines 631-735)
-/

/-- The recipient values rejected by `_handle_multi_agent_workflow`
(line 706). -/
def banned_recipients : List String :=
  ["to", "for", "with", "about", "from", "the", "a", "an"]

/-- The four parameters parsed from the LLM reply of
`_handle_multi_agent_workflow` (all initialised to the empty string). -/
structure WorkflowParams where
  workflow_type : String := ""
  file_query : String := ""
  recipient : String := ""
  message : String := ""
deriving DecidableEq

/-- Processing of one reply line (lines 698-710): the first matching
`startswith` prefix is stripped out (everywhere in the line, as `str.replace`
does) and the remainder stored; an extracted recipient whose lowercase form is
a banned preposition or article is replaced by the empty string. -/
def apply_param_line (p : WorkflowParams) (line : String) : WorkflowParams :=
  if startsWithStr line "WORKFLOW:" then
    { p with workflow_type := stripStr (replaceStr line "WORKFLOW:" "") }
  else if startsWithStr line "FILE:" then
    { p with file_query := stripStr (replaceStr line "FILE:" "") }
  else if startsWithStr line "RECIPIENT:" then
    let r := stripStr (replaceStr line "RECIPIENT:" "")
    if banned_recipients.contains (lowerStr r) then { p with recipient := "" }
    else { p with recipient := r }
  else if startsWithStr line "MESSAGE:" then
    { p with message := stripStr (replaceStr line "MESSAGE:" "") }
  else p

/-- The `for line in response_text.split('\n')` parsing loop of
`_handle_multi_agent_workflow` (lines 692-710). -/
def parse_workflow_params (response_text : String) : WorkflowParams :=
  (splitLines response_text).foldl apply_param_line {}

/-- `file_terms` of `_handle_multi_agent_workflow` (line 636). -/
def multi_agent_file_terms : List String :=
  ["ownership", "document", "file", "report", "presentation", "photo", "video",
   "pdf", "doc"]

/-- The failure dictionary of the `except` clause of
`_handle_multi_agent_workflow` (lines 729-735). -/
def multi_agent_error (e : String) : PyResult :=
  { success := some false
    message := some ("Hi! I\x27m SwarAI. I had trouble understanding that " ++
      "multi-agent request. Error: " ++ e)
    error := some e }

/-- `_handle_multi_agent_workflow` (lines 631-735): WhatsApp-only delegation
when no file term occurs, otherwise LLM parse of the workflow parameters and
dispatch to one of the sub-workflows; every exception (LLM failure, missing
`whatsapp` registry key) is caught by its own `except`, which returns
`multi_agent_error` — the node-level `error` field is never set from here. -/
def handle_multi_agent (env : Env) (cmd : String) : PyResult :=
  let lower := lowerStr cmd
  let has_file_intent := multi_agent_file_terms.any (fun t => strContains lower t)
  if !has_file_intent &&
      (["send whatsapp", "whatsapp to", "message to"].any
        (fun p => strContains lower p)) then
    match env.agents "whatsapp" with
    | some f => (f cmd).toPy
    | none => multi_agent_error "\x27whatsapp\x27"
  else
    match env.multiAgentLLM with
    | Except.error e => multi_agent_error e
    | Except.ok resp =>
      let p := parse_workflow_params (stripStr resp)
      if p.workflow_type == "file_to_whatsapp" && !(p.file_query == "") &&
          !(p.recipient == "") then
        env.fileToWhatsapp p.file_query p.recipient p.message
      else if p.workflow_type == "search_and_share" && !(p.file_query == "") then
        env.searchAndShare p.file_query p.recipient
      else if p.workflow_type == "whatsapp_only" && !(p.recipient == "") then
        match env.agents "whatsapp" with
        | some f =>
          (f (if !(p.message == "") then
                "Send WhatsApp to " ++ p.recipient ++ ": " ++ p.message
              else "Send WhatsApp to " ++ p.recipient)).toPy
        | none => multi_agent_error "\x27whatsapp\x27"
      else env.genericWorkflow cmd

/-!
## `agent_manager.py` — routing, response synthesis, the public entry point
-/

/-- The twelve agent names of the explicit `elif` chain of
`route_to_agent_node` (lines 537-560), which are exactly the keys registered in
`AgentManager.__init__`. -/
def fixed_agent_names : List String :=
  ["conversation", "whatsapp", "filesearch", "email", "calendar", "phone",
   "payment", "app_launcher", "websearch", "task", "screenshot", "system_control"]

/-- The response dictionary of the `except` clause of `route_to_agent_node`
(lines 583-590), for the exception text `e`. -/
def route_error_response (e : String) : PyResult :=
  { success := some false
    message := some ("Hi! I\x27m SwarAI. I encountered a small issue: " ++ e ++
      ". Please try again!")
    error := some e }

/-- `route_to_agent_node` (lines 517-590), given the already-detected agent
name: the multi-task and legacy multi-agent branches, the twelve-agent `elif`
chain, and the feature-logger fallback for unknown names.  The returned pair is
(`state["error"]` contribution, `state["agent_response"]`).  With agents
modelled as total functions, the `except` clause is reachable exactly when a
fixed agent name is missing from the registry (Python `KeyError`, whose string
form is the quoted key). -/
def route_to_agent (env : Env) (name cmd : String) : Option String × PyResult :=
  if name == "multi_task" then
    (none, execute_workflow env.orchLLM env.agents cmd)
  else if name == "multi_agent" then
    (none, handle_multi_agent env cmd)
  else if fixed_agent_names.contains name then
    match env.agents name with
    | some f => (none, (f cmd).toPy)
    | none =>
      let e := "\x27" ++ name ++ "\x27"
      (some ("Error routing to agent: " ++ e), route_error_response e)
  else
    (none, { success := some false, message := some (env.featureMsg cmd) })

/-- `generate_response_node` (lines 592-611): with a pipeline error, the system
error string; otherwise the agent response message, with defaults for missing
keys. -/
def generate_response (error : Option String) (resp : PyResult) : String :=
  match error with
  | some e => "❌ System Error: " ++ e
  | none =>
    if resp.success.getD false then
      resp.message.getD "✅ Task completed successfully!"
    else
      resp.message.getD ("❌ Error: " ++ resp.error.getD "Unknown error occurred")

/-- The envelope returned by `AgentManager.process_command` (lines 952-969).
The agent-specific passthrough keys (`search_results`, `whatsapp_url`, ...) are
projections of `agent_response` and are not duplicated here. -/
structure FinalResponse where
  success : Bool
  message : String
  intent : String
  agent_used : String
  agent_response : PyResult
  error : Option String
  original_input : String
  enhanced_input : String
  was_enhanced : Bool
deriving DecidableEq

/-- `AgentManager.process_command` (lines 925-988): strip the input, run the
four graph nodes in order (enhance, detect intent, route, generate response)
and assemble the envelope.  `success` is `not bool(result.get("error"))`; every
error string the pipeline produces is non-empty, so this is `error.isNone`.
When intent detection fails, `route_to_agent_node` returns immediately
(`state.get("error")` guard), leaving `detected_intent`, `agent_name` and
`agent_response` at their initial empty values. -/
def process_command (env : Env) (user_input : String) : FinalResponse :=
  let stripped := stripStr user_input
  let enhanced := ai_enhancement env.enhanceLLM stripped
  match intent_detection env enhanced with
  | Except.error e =>
    { success := false
      message := "❌ System Error: " ++ e
      intent := ""
      agent_used := ""
      agent_response := {}
      error := some e
      original_input := stripped
      enhanced_input := enhanced
      was_enhanced := !(stripped == enhanced) }
  | Except.ok name =>
    let routed := route_to_agent env name enhanced
    { success := routed.1.isNone
      message := generate_response routed.1 routed.2
      intent := name
      agent_used := name
      agent_response := routed.2
      error := routed.1
      original_input := stripped
      enhanced_input := enhanced
      was_enhanced := !(stripped == enhanced) }

/-!
## Concrete test fixtures

Closed environments and registries for the counterexample and witness theorems
below.  `env0` is a neutral environment (no agents registered, all LLM calls
answered with the empty reply); the others override single fields.
-/

/-- A neutral collaborator environment. -/
def env0 : Env :=
  { enhanceLLM := Except.ok ""
    classifyLLM := Except.ok ""
    multiAgentLLM := Except.ok ""
    orchLLM := Except.ok ""
    isConversational := fun _ => false
    agents := fun _ => none
    featureMsg := fun _ => ""
    fileToWhatsapp := fun _ _ _ => {}
    searchAndShare := fun _ _ => {}
    genericWorkflow := fun _ => {} }

/-- Environment whose enhancement LLM raises, whose conversational check always
fires, and whose conversation agent reports failure. -/
def envA : Env :=
  { env0 with
    enhanceLLM := Except.error "offline"
    isConversational := fun _ => true
    agents := fun n =>
      if n == "conversation" then
        some (fun _ => { success := some false, message := some "nope" })
      else none }

/-- Like `envA`, but the conversation agent succeeds. -/
def envB : Env :=
  { envA with
    agents := fun n =>
      if n == "conversation" then
        some (fun _ => { success := some true, message := some "Hello there" })
      else none }

/-- An agent that always succeeds. -/
def fOk : String → AgentResult := fun _ => { success := some true, message := some "done" }

/-- An agent that always fails. -/
def fBad : String → AgentResult := fun _ => { success := some false, message := some "nope" }

/-- Registry with a succeeding agent `"ok"` and a failing agent `"bad"`. -/
def agentsC : Registry := fun n =>
  if n == "ok" then some fOk else if n == "bad" then some fBad else none

/-!
## Claims
-/

/-- C7: for every input `raw`, the enhanced output of the normalization stage
satisfies `3 ≤ len(enhanced) ∧ len(enhanced) ≤ 3 * len(raw)`, or else
`enhanced = raw` — the rewrite is rejected verbatim when it fails the length
validation or when the LLM call raises. -/
theorem c7_enhancement_length_validation (llm : Except String String) (raw : String) :
    (3 ≤ (ai_enhancement llm raw).length ∧
      (ai_enhancement llm raw).length ≤ 3 * raw.length) ∨
    ai_enhancement llm raw = raw := by
  cases llm with
  | error e => right; rfl
  | ok resp =>
    simp only [ai_enhancement]
    by_cases h : (stripStr resp).length > raw.length * 3 ∨ (stripStr resp).length < 3
    · rw [if_pos h]; right; rfl
    · rw [if_neg h]; left; push_neg at h; omega

/-- C9 (amended): the enhanced field equals the original whenever the rewrite
fails the length validation or the LLM call errors, and it is non-empty
whenever the original is non-empty.  (The unconditional non-emptiness of the
original claim fails for the empty input, see
`c9_empty_input_empty_enhanced`.) -/
theorem c9_enhanced_fallback_nonempty (llm : Except String String) (raw : String) :
    (raw ≠ "" → ai_enhancement llm raw ≠ "") ∧
    (∀ e, llm = Except.error e → ai_enhancement llm raw = raw) ∧
    (∀ resp, llm = Except.ok resp →
      (stripStr resp).length > raw.length * 3 ∨ (stripStr resp).length < 3 →
      ai_enhancement llm raw = raw) := by
  refine ⟨?_, ?_, ?_⟩
  · intro hraw
    cases llm with
    | error e => exact hraw
    | ok resp =>
      simp only [ai_enhancement]
      by_cases h : (stripStr resp).length > raw.length * 3 ∨ (stripStr resp).length < 3
      · rw [if_pos h]; exact hraw
      · rw [if_neg h]
        push_neg at h
        intro hempty
        have hlen : (stripStr resp).length = 0 := by rw [hempty]; rfl
        omega
  · intro e he; subst he; rfl
  · intro resp he h
    subst he
    simp only [ai_enhancement]
    rw [if_pos h]

/-- Witness for C9: the three hypotheses discharged at concrete inputs. -/
theorem c9_enhanced_fallback_nonempty_witness :
    ai_enhancement (Except.ok "ok") "hi" ≠ "" ∧
    ai_enhancement (Except.error "boom") "hi" = "hi" ∧
    ai_enhancement (Except.ok "x") "hi" = "hi" :=
  ⟨(c9_enhanced_fallback_nonempty (Except.ok "ok") "hi").1 (by decide),
   (c9_enhanced_fallback_nonempty (Except.error "boom") "hi").2.1 "boom" rfl,
   (c9_enhanced_fallback_nonempty (Except.ok "x") "hi").2.2 "x" rfl (by right; decide)⟩

/-- Counterexample to C9 as stated: for the empty input the stage yields an
empty `enhanced` field (the validation rejects the non-degenerate reply
`"hello"` because its length exceeds `3 * 0`, and the fallback is the empty
original), so `enhanced` is not always non-empty. -/
theorem c9_empty_input_empty_enhanced :
    ai_enhancement (Except.ok "hello") "" = "" := by decide

/-- The end-to-end scenario input of C2. -/
def c2_input : String := "find ownership document and send to jay on whatsapp"

/-- C2 (amended): for the scenario input, the multi-task detector returns true,
but the planner returns no tasks at all — the file→communication template
requires a file keyword between the send/share verb and the `to`/`with`
preposition, which this phrasing lacks — so the workflow is reported as
unparseable.  (The original claim of exactly two task descriptors fails, see
`c2_plan_returns_no_tasks`.) -/
theorem c2_detect_true_but_plan_empty (llm : Except String String) (agents : Registry) :
    detect_multi_task c2_input = true ∧
    parse_workflow llm c2_input = [] ∧
    execute_workflow llm agents c2_input = could_not_parse_result := by
  cases llm with
  | ok r => exact ⟨rfl, rfl, rfl⟩
  | error e => exact ⟨rfl, rfl, rfl⟩

/-- Counterexample to C2 as stated: the planner returns the empty list for the
scenario input (not two task descriptors), although detection succeeds. -/
theorem c2_plan_returns_no_tasks :
    detect_multi_task c2_input = true ∧
    parse_workflow (Except.ok "") c2_input = [] := ⟨rfl, rfl⟩

/-- One line of the legacy reply parser never leaves a banned recipient in
place. -/
theorem apply_param_line_recipient (p : WorkflowParams) (line : String)
    (h : banned_recipients.contains (lowerStr p.recipient) = false) :
    banned_recipients.contains (lowerStr (apply_param_line p line).recipient) = false := by
  unfold apply_param_line
  by_cases h₁ : startsWithStr line "WORKFLOW:" = true
  · rw [if_pos h₁]; exact h
  · rw [if_neg h₁]
    by_cases h₂ : startsWithStr line "FILE:" = true
    · rw [if_pos h₂]; exact h
    · rw [if_neg h₂]
      by_cases h₃ : startsWithStr line "RECIPIENT:" = true
      · rw [if_pos h₃]
        by_cases hb : banned_recipients.contains
            (lowerStr (stripStr (replaceStr line "RECIPIENT:" ""))) = true
        · rw [if_pos hb]
          show banned_recipients.contains (lowerStr "") = false
          decide
        · rw [if_neg hb]; simpa using hb
      · rw [if_neg h₃]
        by_cases h₄ : startsWithStr line "MESSAGE:" = true
        · rw [if_pos h₄]; exact h
        · rw [if_neg h₄]; exact h

/-- The whole legacy reply parse never yields a banned recipient. -/
theorem parse_params_recipient_aux (lines : List String) :
    ∀ p : WorkflowParams, banned_recipients.contains (lowerStr p.recipient) = false →
      banned_recipients.contains
        (lowerStr (lines.foldl apply_param_line p).recipient) = false := by
  induction lines with
  | nil => intro p h; exact h
  | cons l ls ih => intro p h; exact ih _ (apply_param_line_recipient p l h)

/-- C4 (amended): the legacy multi-agent parser always rejects the banned set
`{to, for, with, about, from, the, a, an}` as a recipient value, and for the
quoted input `"send report.pdf to the team"` the multi-task planner extracts no
recipient at all (only the file-search task is planned).  The blanket guard of
the original claim does not hold for the multi-task planner, which applies no
such filter — see `c4_multitask_planner_extracts_the`. -/
theorem c4_recipient_guard_scope :
    (∀ resp : String,
      banned_recipients.contains
        (lowerStr (parse_workflow_params resp).recipient) = false) ∧
    (∀ llm : Except String String,
      parse_workflow llm "send report.pdf to the team" =
        [{ agent := "filesearch", input := "find report.pdf",
           extract := some "file_path" }]) := by
  constructor
  · intro resp
    exact parse_params_recipient_aux (splitLines resp) {} (by decide)
  · intro llm; rfl

/-- Counterexample to C4 as stated: on
`"send report.pdf to the team on whatsapp"` the multi-task planner extracts the
article `"the"` as the WhatsApp recipient (the second task's input is
`"send whatsapp to the"`), so a banned word is not always rejected. -/
theorem c4_multitask_planner_extracts_the :
    parse_workflow (Except.ok "") "send report.pdf to the team on whatsapp" =
      [{ agent := "filesearch", input := "find report.pdf",
         extract := some "file_path" },
       { agent := "whatsapp", input := "send whatsapp to the",
         use_previous := some "file_path" }] := rfl

/-- When neither hand-coded template guard matches, the planner falls through
to the LLM fallback and returns no tasks. -/
theorem parse_workflow_no_template (llm : Except String String) (input : String)
    (h₁ : reTest pat_send_file_comm (lowerStr input) = false)
    (h₂ : reTest pat_screenshot_then (lowerStr input) = false) :
    parse_workflow llm input = [] := by
  simp only [parse_workflow, h₁, h₂]
  cases llm <;> simp [ai_parse_workflow]

/-- C10: the LLM fallback planner returns the empty task list for every reply
and for every exception (the reply is never parsed); consequently the planner
produces a non-empty task list only when one of the two hand-coded template
guards matches, and when neither matches, execution reports the
could-not-parse failure. -/
theorem c10_ai_planner_returns_nothing (llm : Except String String)
    (agents : Registry) (input : String) :
    ai_parse_workflow llm input = [] ∧
    (parse_workflow llm input ≠ [] →
      reTest pat_send_file_comm (lowerStr input) = true ∨
      reTest pat_screenshot_then (lowerStr input) = true) ∧
    (reTest pat_send_file_comm (lowerStr input) = false →
      reTest pat_screenshot_then (lowerStr input) = false →
      parse_workflow llm input = [] ∧
      execute_workflow llm agents input = could_not_parse_result) := by
  refine ⟨?_, ?_, ?_⟩
  · cases llm <;> rfl
  · intro hne
    by_cases h₁ : reTest pat_send_file_comm (lowerStr input) = true
    · exact Or.inl h₁
    · by_cases h₂ : reTest pat_screenshot_then (lowerStr input) = true
      · exact Or.inr h₂
      · exact absurd (parse_workflow_no_template llm input
          (by simpa using h₁) (by simpa using h₂)) hne
  · intro h₁ h₂
    have hp := parse_workflow_no_template llm input h₁ h₂
    exact ⟨hp, by simp [execute_workflow, hp]⟩

/-- Witness for C10: the no-template hypotheses discharged at `"hello"`
(could-not-parse failure), and a planned input showing the guard of the second
component satisfiable. -/
theorem c10_ai_planner_returns_nothing_witness :
    (parse_workflow (Except.ok "") "hello" = [] ∧
      execute_workflow (Except.ok "") (fun _ => none) "hello" =
        could_not_parse_result) ∧
    (reTest pat_send_file_comm (lowerStr "send the file to jay on whatsapp") = true ∨
      reTest pat_screenshot_then (lowerStr "send the file to jay on whatsapp") = true) :=
  ⟨(c10_ai_planner_returns_nothing (Except.ok "") (fun _ => none) "hello").2.2 rfl rfl,
   (c10_ai_planner_returns_nothing (Except.ok "") (fun _ => none)
      "send the file to jay on whatsapp").2.1 (by decide)⟩

/-- C1 (amended): the envelope's `success` field is false exactly when a
pipeline-level error occurred (`state["error"]` was set): `process_command`
computes `success` as `not bool(result.get("error"))`, so a dispatched agent's
or workflow's reported failure does not make the envelope's `success` false —
see `c1_agent_failure_gives_success_true`. -/
theorem c1_envelope_success_iff_pipeline_error (env : Env) (input : String) :
    ((process_command env input).success = false ↔
      (process_command env input).error.isSome = true) := by
  cases h : intent_detection env (ai_enhancement env.enhanceLLM (stripStr input)) with
  | error e => simp [process_command, h]
  | ok name =>
    cases hro : (route_to_agent env name
        (ai_enhancement env.enhanceLLM (stripStr input))).1 <;>
      simp [process_command, h, hro]

/-- Counterexample to C1 as stated: in `envA` the dispatched conversation agent
reports `success: false` and no pipeline-level error occurs, yet the envelope's
`success` field is true. -/
theorem c1_agent_failure_gives_success_true :
    (process_command envA "hello").agent_response.success = some false ∧
    (process_command envA "hello").error = none ∧
    (process_command envA "hello").success = true := ⟨rfl, rfl, rfl⟩

/-- C6 (amended): `process_command` is total (it always returns an envelope),
and whenever a pipeline-level error is recorded — an exception in
classification or routing — the envelope has `success = false` and the
human-readable system-error message.  An exception during normalization,
however, is recovered by falling back to the original text and is not
converted into a failing result — see
`c6_normalization_exception_not_failure`. -/
theorem c6_pipeline_error_handling (env : Env) (input : String) :
    (process_command env input).error = none ∨
    ∃ e, (process_command env input).error = some e ∧
      (process_command env input).success = false ∧
      (process_command env input).message = "❌ System Error: " ++ e := by
  cases h : intent_detection env (ai_enhancement env.enhanceLLM (stripStr input)) with
  | error e =>
    refine Or.inr ⟨e, ?_, ?_, ?_⟩ <;> simp [process_command, h]
  | ok name =>
    cases hro : (route_to_agent env name
        (ai_enhancement env.enhanceLLM (stripStr input))).1 with
    | none => exact Or.inl (by simp [process_command, h, hro])
    | some e =>
      refine Or.inr ⟨e, ?_, ?_, ?_⟩ <;>
        simp [process_command, h, hro, generate_response]

/-- Counterexample to C6 as stated: in `envB` the enhancement LLM raises, yet
the envelope reports success (the exception is recovered inside the
normalization stage, not converted into a result with `success = false`). -/
theorem c6_normalization_exception_not_failure :
    envB.enhanceLLM = Except.error "offline" ∧
    (process_command envB "hi there").success = true ∧
    (process_command envB "hi there").error = none ∧
    (process_command envB "hi there").enhanced_input = "hi there" ∧
    (process_command envB "hi there").original_input = "hi there" :=
  ⟨rfl, rfl, rfl, rfl, rfl⟩

/-- C8 (amended): for a command containing both a system-control phrase and a
file-context keyword, the classifier returns `system_control` whenever the
multi-task structural check — which precedes everything in the cascade — does
not fire, and it never returns `filesearch` in any case.  The original
unconditional claim fails when the multi-task check fires first, see
`c8_multitask_preempts_system_control`. -/
theorem c8_system_control_priority (cmd : String)
    (hsc : has_system_control_intent cmd = true)
    (hfc : has_file_context cmd = true) :
    (∀ env : Env, detect_multi_task cmd = false →
      intent_detection env cmd = Except.ok "system_control") ∧
    (∀ env : Env, intent_detection env cmd ≠ Except.ok "filesearch") := by
  constructor
  · intro env hnd
    simp [intent_detection, hnd, hsc, hfc]
  · intro env
    by_cases hnd : detect_multi_task cmd = true
    · simp [intent_detection, hnd]
    · simp only [Bool.not_eq_true] at hnd
      simp [intent_detection, hnd, hsc, hfc]

/-- Witness for C8 at the example command of the claim. -/
theorem c8_system_control_priority_witness :
    intent_detection env0 "increase volume of my presentation file" =
      Except.ok "system_control" ∧
    intent_detection env0 "increase volume of my presentation file" ≠
      Except.ok "filesearch" :=
  ⟨(c8_system_control_priority "increase volume of my presentation file"
      (by decide) (by decide)).1 env0 (by decide),
   (c8_system_control_priority "increase volume of my presentation file"
      (by decide) (by decide)).2 env0⟩

/-- Counterexample to C8 as stated: `"find message volume file"` contains a
system-control phrase (`"volume"`) and a file keyword (`"file"`), but the
multi-task detector fires first (file-search and WhatsApp keyword categories
co-occur) and the classifier returns `multi_task`, not `system_control`. -/
theorem c8_multitask_preempts_system_control :
    has_system_control_intent "find message volume file" = true ∧
    has_file_context "find message volume file" = true ∧
    intent_detection env0 "find message volume file" = Except.ok "multi_task" :=
  ⟨rfl, rfl, rfl⟩

/-- C3 (amended): for a 2-task plan whose first agent succeeds and whose second
agent fails, execution returns `success = false` and `completed_tasks = 1`, but
`task_results` has length 2 — the failing task's record is appended before the
early return, so task 2 is recorded as attempted and failed (never as
succeeded).  The original claim of `taskResults` length 1 fails, see
`c3_task_results_length_two`. -/
theorem c3_abort_records_failed_task (agents : Registry) (t₁ t₂ : TaskDescriptor)
    (f₁ f₂ : String → AgentResult)
    (h₁ : agents t₁.agent = some f₁) (h₂ : agents t₂.agent = some f₂)
    (hs₁ : ∀ s, (f₁ s).success.getD false = true)
    (hs₂ : ∀ s, (f₂ s).success.getD false = false) :
    (execute_tasks agents [t₁, t₂]).success = some false ∧
    (execute_tasks agents [t₁, t₂]).completed_tasks = some 1 ∧
    (execute_tasks agents [t₁, t₂]).task_results.length = 2 ∧
    (execute_tasks agents [t₁, t₂]).task_results.map
      (fun r => r.result.success.getD false) = [true, false] := by
  refine ⟨?_, ?_, ?_, ?_⟩ <;>
    simp [execute_tasks, runTasks, h₁, h₂, hs₁, hs₂]

/-- Witness for C3: concrete registry with a succeeding and a failing agent. -/
theorem c3_abort_records_failed_task_witness :
    (execute_tasks agentsC
      [{ agent := "ok", input := "a" }, { agent := "bad", input := "b" }]).success =
        some false ∧
    (execute_tasks agentsC
      [{ agent := "ok", input := "a" }, { agent := "bad", input := "b" }]).completed_tasks =
        some 1 ∧
    (execute_tasks agentsC
      [{ agent := "ok", input := "a" }, { agent := "bad", input := "b" }]).task_results.length =
        2 ∧
    (execute_tasks agentsC
      [{ agent := "ok", input := "a" }, { agent := "bad", input := "b" }]).task_results.map
      (fun r => r.result.success.getD false) = [true, false] :=
  c3_abort_records_failed_task agentsC
    { agent := "ok", input := "a" } { agent := "bad", input := "b" }
    fOk fBad rfl rfl (fun _ => rfl) (fun _ => rfl)

/-- Counterexample to C3 as stated: the same concrete run has `task_results` of
length 2, not 1 (the failed second task is recorded). -/
theorem c3_task_results_length_two :
    (execute_tasks agentsC
      [{ agent := "ok", input := "a" }, { agent := "bad", input := "b" }]).task_results.length =
        2 ∧
    (execute_tasks agentsC
      [{ agent := "ok", input := "a" }, { agent := "bad", input := "b" }]).success =
        some false ∧
    (execute_tasks agentsC
      [{ agent := "ok", input := "a" }, { agent := "bad", input := "b" }]).completed_tasks =
        some 1 := ⟨rfl, rfl, rfl⟩

/-- Structure of the execution loop when every task's agent is registered: the
recorded task indices are consecutive from `i`, the recorded agents are the
agents of the corresponding prefix of the task list, at most all tasks are
recorded, all are recorded when no failure is signalled, and a signalled
failure is the recorded last result and has `success = false`. -/
theorem runTasks_records (agents : Registry) (tasks : List TaskDescriptor) :
    ∀ (i : Nat) (shared : List (String × String)),
      (∀ t ∈ tasks, (agents t.agent).isSome = true) →
      (runTasks agents tasks i shared).1.map TaskRecord.task_index =
        List.range' i (runTasks agents tasks i shared).1.length ∧
      (runTasks agents tasks i shared).1.map TaskRecord.agent =
        (tasks.take (runTasks agents tasks i shared).1.length).map
          TaskDescriptor.agent ∧
      (runTasks agents tasks i shared).1.length ≤ tasks.length ∧
      ((runTasks agents tasks i shared).2 = none →
        (runTasks agents tasks i shared).1.length = tasks.length) ∧
      (∀ j res, (runTasks agents tasks i shared).2 = some (j, res) →
        res.success.getD false = false ∧
        ((runTasks agents tasks i shared).1.map TaskRecord.result).getLast? =
          some res) := by
  induction tasks with
  | nil =>
    intro i shared _
    exact ⟨rfl, rfl, Nat.le_refl 0, fun _ => rfl, fun j res h => by cases h⟩
  | cons t rest ih =>
    intro i shared hreg
    have hhead : (agents t.agent).isSome = true := hreg t (List.mem_cons_self t rest)
    obtain ⟨f, hf⟩ := Option.isSome_iff_exists.mp hhead
    have htail : ∀ t' ∈ rest, (agents t'.agent).isSome = true :=
      fun t' ht' => hreg t' (List.mem_cons_of_mem t ht')
    by_cases hs : (f (build_task_input t shared)).success.getD false = true
    · have hrun : runTasks agents (t :: rest) i shared =
          (⟨i, t.agent, f (build_task_input t shared)⟩ ::
            (runTasks agents rest (i + 1)
              (extract_shared t (f (build_task_input t shared)) shared)).1,
           (runTasks agents rest (i + 1)
              (extract_shared t (f (build_task_input t shared)) shared)).2) := by
        simp only [runTasks, hf]
        rw [if_pos hs]
      obtain ⟨ih1, ih2, ih3, ih4, ih5⟩ :=
        ih (i + 1) (extract_shared t (f (build_task_input t shared)) shared) htail
      rw [hrun]
      refine ⟨?_, ?_, ?_, ?_, ?_⟩
      · simp only [List.map_cons, List.length_cons, List.range'_succ]
        rw [ih1]
      · simp only [List.map_cons, List.length_cons, List.take_succ_cons]
        rw [ih2]
      · simpa using Nat.succ_le_succ ih3
      · intro hnone
        simp only [List.length_cons]
        rw [ih4 hnone]
      · intro j res hsig
        obtain ⟨hfail, hlast⟩ := ih5 j res hsig
        refine ⟨hfail, ?_⟩
        simp only [List.map_cons]
        cases hn : (runTasks agents rest (i + 1)
            (extract_shared t (f (build_task_input t shared)) shared)).1 with
        | nil => rw [hn] at hlast; simp at hlast
        | cons a l =>
          rw [hn] at hlast
          simp only [List.map_cons] at hlast ⊢
          rw [List.getLast?_cons_cons]
          exact hlast
    · have hs' : (f (build_task_input t shared)).success.getD false = false := by
        simpa using hs
      have hrun : runTasks agents (t :: rest) i shared =
          ([⟨i, t.agent, f (build_task_input t shared)⟩],
           some (i, f (build_task_input t shared))) := by
        simp only [runTasks, hf]
        rw [if_neg (by simp [hs'])]
      rw [hrun]
      refine ⟨rfl, rfl, Nat.succ_le_succ (Nat.zero_le _), ?_, ?_⟩
      · intro hnone; cases hnone
      · intro j res hsig
        have hres : f (build_task_input t shared) = res := by
          have h := Option.some.inj hsig
          exact congrArg Prod.snd h
        refine ⟨hres ▸ hs', ?_⟩
        rw [← hres]
        rfl

/-- Every task the template planner emits names one of the four agents
`filesearch`, `whatsapp`, `email`, `screenshot` — all of which are registered
in `AgentManager.__init__` — so a plan produced by `parse_workflow` never hits
the silent-skip branch of the execution loop. -/
theorem parse_workflow_agent_names (llm : Except String String) (input : String) :
    ∀ t ∈ parse_workflow llm input,
      (["filesearch", "whatsapp", "email", "screenshot"].contains t.agent) = true := by
  intro t ht
  have hai : ai_parse_workflow llm input = [] := by cases llm <;> rfl
  by_cases h₁ : reTest pat_send_file_comm (lowerStr input) = true
  · cases hg : reGroup pat_file_capture 2 input with
    | some fq =>
      by_cases hw : strContains (lowerStr input) "whatsapp" = true
      · cases hgw : reGroup pat_wa_contact 1 input with
        | some c =>
          simp [parse_workflow, hai, h₁, hg, hw, hgw] at ht
          rcases ht with rfl | rfl <;> rfl
        | none =>
          simp [parse_workflow, hai, h₁, hg, hw, hgw] at ht
          rcases ht with rfl
          rfl
      · by_cases he : strContains (lowerStr input) "email" = true
        · cases hge : reGroup pat_email_contact 1 input with
          | some c =>
            simp [parse_workflow, hai, h₁, hg, hw, he, hge] at ht
            rcases ht with rfl | rfl <;> rfl
          | none =>
            simp [parse_workflow, hai, h₁, hg, hw, he, hge] at ht
            rcases ht with rfl
            rfl
        · simp [parse_workflow, hai, h₁, hg, hw, he] at ht
          rcases ht with rfl
          rfl
    | none =>
      by_cases hw : strContains (lowerStr input) "whatsapp" = true
      · cases hgw : reGroup pat_wa_contact 1 input with
        | some c =>
          simp [parse_workflow, hai, h₁, hg, hw, hgw] at ht
          rcases ht with rfl
          rfl
        | none =>
          simp [parse_workflow, hai, h₁, hg, hw, hgw] at ht
      · by_cases he : strContains (lowerStr input) "email" = true
        · cases hge : reGroup pat_email_contact 1 input with
          | some c =>
            simp [parse_workflow, hai, h₁, hg, hw, he, hge] at ht
            rcases ht with rfl
            rfl
          | none =>
            simp [parse_workflow, hai, h₁, hg, hw, he, hge] at ht
        · simp [parse_workflow, hai, h₁, hg, hw, he] at ht
  · by_cases h₂ : reTest pat_screenshot_then (lowerStr input) = true
    · by_cases he : strContains (lowerStr input) "email" = true
      · cases hge : reGroup pat_email_contact 1 input with
        | some c =>
          simp [parse_workflow, hai, h₁, h₂, he, hge] at ht
          rcases ht with rfl | rfl <;> rfl
        | none =>
          simp [parse_workflow, hai, h₁, h₂, he, hge] at ht
          rcases ht with rfl
          rfl
      · by_cases hw : strContains (lowerStr input) "whatsapp" = true
        · cases hgw : reGroup pat_wa_contact_screenshot 1 input with
          | some c =>
            simp [parse_workflow, hai, h₁, h₂, he, hw, hgw] at ht
            rcases ht with rfl | rfl <;> rfl
          | none =>
            simp [parse_workflow, hai, h₁, h₂, he, hw, hgw] at ht
            rcases ht with rfl
            rfl
        · simp [parse_workflow, hai, h₁, h₂, he, hw] at ht
          rcases ht with rfl
          rfl
    · simp [parse_workflow, hai, h₁, h₂] at ht

/-- C5 (amended): when every task's agent name is registered, tasks are
dispatched strictly in list order with no reordering and no skipping — the
recorded indices are `0, 1, …`, the recorded agents are those of the
corresponding prefix of the task list, and if some task was not dispatched then
the last dispatched task failed.  Plans produced by `parse_workflow` only name
registered agents, so composed workflow runs satisfy the premise.  For a task
list naming an unregistered agent the original claim fails — the loop skips
such a task silently — see `c5_unregistered_task_skipped`. -/
theorem c5_ordered_dispatch_registered (agents : Registry) (tasks : List TaskDescriptor)
    (hreg : ∀ t ∈ tasks, (agents t.agent).isSome = true) :
    (execute_tasks agents tasks).task_results.map TaskRecord.task_index =
      List.range (execute_tasks agents tasks).task_results.length ∧
    (execute_tasks agents tasks).task_results.map TaskRecord.agent =
      (tasks.take (execute_tasks agents tasks).task_results.length).map
        TaskDescriptor.agent ∧
    (execute_tasks agents tasks).task_results.length ≤ tasks.length ∧
    ((execute_tasks agents tasks).task_results.length < tasks.length →
      ∃ r, (execute_tasks agents tasks).task_results.getLast? = some r ∧
        r.result.success.getD false = false) ∧
    (∀ llm input, ∀ t ∈ parse_workflow llm input,
      (["filesearch", "whatsapp", "email", "screenshot"].contains t.agent) = true) := by
  obtain ⟨h1, h2, h3, h4, h5⟩ := runTasks_records agents tasks 0 [] hreg
  have htr : (execute_tasks agents tasks).task_results =
      (runTasks agents tasks 0 []).1 := by
    unfold execute_tasks
    split
    · rename_i records i result heq
      rw [heq]
    · rename_i records heq
      rw [heq]
  rw [htr]
  refine ⟨?_, h2, h3, ?_, parse_workflow_agent_names⟩
  · rw [h1, List.range_eq_range']
  · intro hlt
    cases hsig : (runTasks agents tasks 0 []).2 with
    | none => exact absurd (h4 hsig) (Nat.ne_of_lt hlt)
    | some p =>
      obtain ⟨j, res⟩ := p
      obtain ⟨hfail, hlast⟩ := h5 j res hsig
      rw [List.getLast?_map] at hlast
      cases hr : (runTasks agents tasks 0 []).1.getLast? with
      | none => rw [hr] at hlast; cases hlast
      | some r =>
        rw [hr] at hlast
        refine ⟨r, rfl, ?_⟩
        have : r.result = res := Option.some.inj hlast
        rw [this]
        exact hfail

/-- Witness for C5: the registered-agents hypothesis discharged at a concrete
one-task run. -/
theorem c5_ordered_dispatch_registered_witness :
    (execute_tasks agentsC [{ agent := "ok", input := "a" }]).task_results.map
        TaskRecord.task_index =
      List.range
        (execute_tasks agentsC [{ agent := "ok", input := "a" }]).task_results.length ∧
    (execute_tasks agentsC [{ agent := "ok", input := "a" }]).task_results.length ≤
      [({ agent := "ok", input := "a" } : TaskDescriptor)].length :=
  ⟨(c5_ordered_dispatch_registered agentsC [{ agent := "ok", input := "a" }]
      (by intro t ht; simp at ht; subst ht; rfl)).1,
   (c5_ordered_dispatch_registered agentsC [{ agent := "ok", input := "a" }]
      (by intro t ht; simp at ht; subst ht; rfl)).2.2.1⟩

/-- Counterexample to C5 as stated: over the task list
`[{agent: "ghost", ...}]` with an empty registry, the single task is never
dispatched and never appended to `task_results`, although no earlier task
failed (the run even reports overall success); a task can thus go undispatched
without any failing predecessor. -/
theorem c5_unregistered_task_skipped :
    (execute_tasks (fun _ => none) [{ agent := "ghost", input := "x" }]).task_results =
      [] ∧
    (execute_tasks (fun _ => none) [{ agent := "ghost", input := "x" }]).success =
      some true := ⟨rfl, rfl⟩
